import Mathlib

/-!
Shallow embedding of the boids repository core (Vector2, Color, Boid),
translated from `src/src/utils/Vector2.ts`, the color module, and
`src/src/index.ts`.  JavaScript numbers are modelled by real numbers for
the geometric core (the relevant operations involve `atan2`, `cos`, `sin`
and `π`) and by rationals for the color channels (only arithmetic and
comparisons occur there).  `undefined` fields and NaN results of failed
parses are modelled by `Option`.
-/

namespace Boids

/-- Two dimensional vector, from `Vector2.ts` (`x`, `y` public fields). -/
@[ext] structure Vector2 where
  x : ℝ
  y : ℝ

/-- JavaScript `Math.atan2 y x`: the argument of the complex number `x + y*i`,
in the range `(-π, π]`, with `atan2 0 0 = 0`. -/
noncomputable def atan2 (y x : ℝ) : ℝ := Complex.arg ⟨x, y⟩

/-- From `Vector2.getDirection`: `Math.atan2(this.y, this.x)`. -/
noncomputable def Vector2.getDirection (v : Vector2) : ℝ := atan2 v.y v.x

/-- From `Vector2.getMagnitude`: `Math.sqrt(this.x * this.x + this.y * this.y)`. -/
noncomputable def Vector2.getMagnitude (v : Vector2) : ℝ :=
  Real.sqrt (v.x * v.x + v.y * v.y)

/-- From `Vector2.setMagnitude` (mutating in the source; here it returns the
new value): `x = cos(direction) * magnitude; y = sin(direction) * magnitude`
where `direction = this.getDirection()`. -/
noncomputable def Vector2.setMagnitude (v : Vector2) (magnitude : ℝ) : Vector2 :=
  ⟨Real.cos v.getDirection * magnitude, Real.sin v.getDirection * magnitude⟩

/-- From `Vector2.add` (and `addAndMutate`, which stores this value back). -/
def Vector2.add (v w : Vector2) : Vector2 := ⟨v.x + w.x, v.y + w.y⟩

/-- From `Vector2.multiply` (componentwise scaling by a scalar). -/
def Vector2.multiply (v : Vector2) (scalar : ℝ) : Vector2 :=
  ⟨v.x * scalar, v.y * scalar⟩

/-! ### Color (the unnamed color module)

Channels are JavaScript numbers or `undefined`; we model a channel as
`Option ℚ` (`none` for `undefined`, and also for the NaN produced by a
failed `parseInt`/`parseFloat`, which the claims never reach). -/

/-- RGBA color, from the color module (`r`, `g`, `b`, `a` public fields,
all possibly `undefined`). -/
@[ext] structure Color where
  r : Option ℚ
  g : Option ℚ
  b : Option ℚ
  a : Option ℚ
deriving DecidableEq

/-- JavaScript regular-expression class `\s` (and the characters removed by
`String.prototype.trim`), restricted to the whitespace characters that can
occur here: tab, line feed, vertical tab, form feed, carriage return, space
and no-break space. -/
def jsSpace (c : Char) : Bool := decide (c.toNat ∈ [9, 10, 11, 12, 13, 32, 160])

/-- JavaScript regular-expression class `\d`, exactly the ASCII digits. -/
def jsDigit (c : Char) : Bool := decide (48 ≤ c.toNat ∧ c.toNat ≤ 57)

/-- Digit value used by `parseInt(_, 16)`: ASCII digits and the letters
`a`-`f` / `A`-`F`. -/
def hexDigitVal (c : Char) : Option ℕ :=
  if 48 ≤ c.toNat ∧ c.toNat ≤ 57 then some (c.toNat - 48)
  else if 97 ≤ c.toNat ∧ c.toNat ≤ 102 then some (c.toNat - 87)
  else if 65 ≤ c.toNat ∧ c.toNat ≤ 70 then some (c.toNat - 55)
  else none

/-- Digit value used by `parseInt(_, 10)`: ASCII digits only. -/
def decDigitVal (c : Char) : Option ℕ :=
  if 48 ≤ c.toNat ∧ c.toNat ≤ 57 then some (c.toNat - 48) else none

/-- Accumulator loop of JavaScript `parseInt`: consume leading digits of the
given base, stop at the first non-digit. -/
def parseIntCore (dv : Char → Option ℕ) (base : ℕ) : List Char → ℕ → ℕ
  | [], acc => acc
  | c :: cs, acc =>
    match dv c with
    | some d => parseIntCore dv base cs (base * acc + d)
    | none => acc

/-- JavaScript `parseInt(s, base)` on the strings reachable here: the value
of the leading run of digits, or `none` (NaN) when the string does not start
with a digit.  (The full builtin also skips leading whitespace and accepts a
sign and a `0x` prefix; those are unreachable from the color formats.) -/
def parseIntN (dv : Char → Option ℕ) (base : ℕ) (l : List Char) : Option ℕ :=
  match l with
  | [] => none
  | c :: _ =>
    match dv c with
    | some _ => some (parseIntCore dv base l 0)
    | none => none

/-- Decimal value of a list of ASCII digits (most significant first). -/
def digitsToNat (l : List Char) : ℕ := l.foldl (fun acc c => 10 * acc + (c.toNat - 48)) 0

/-- JavaScript `parseFloat` on the strings reachable from the alpha group of
the color pattern: optional sign, decimal digits with an optional fractional
part; `none` (NaN) when no digit is consumed.  (Exponent notation is
unreachable from the claims and omitted.) -/
def parseFloatQ (l : List Char) : Option ℚ :=
  let l1 := l.dropWhile jsSpace
  let sgn : ℚ := if l1.head? = some '-' then -1 else 1
  let l2 := if l1.head? = some '-' ∨ l1.head? = some '+' then l1.drop 1 else l1
  let ip := l2.takeWhile jsDigit
  let l3 := l2.dropWhile jsDigit
  match l3 with
  | '.' :: r =>
    let fp := r.takeWhile jsDigit
    if ip = [] ∧ fp = [] then none
    else some (sgn * ((digitsToNat ip : ℚ) + (digitsToNat fp : ℚ) / (10 : ℚ) ^ fp.length))
  | _ => if ip = [] then none else some (sgn * (digitsToNat ip : ℚ))

/-- JavaScript `String.prototype.trim`: strip leading and trailing
whitespace. -/
def jsTrim (l : List Char) : List Char :=
  ((l.dropWhile jsSpace).reverse.dropWhile jsSpace).reverse

/-! ### The fixed pattern `RGB_COLOR_REGEX`

`/\((\d+),\s*(\d+),\s*(\d+)(,\s*(\d*.\d*))?\)/` with `exec` semantics: the
pattern is unanchored, so every start position is tried from the left, and
quantifiers are greedy with backtracking.  The `\d+` and the first two `\s*`
quantifiers never benefit from backtracking (giving characters back would
make the following literal `,` or `\d+` face a digit or a space), so they
are matched greedily; the quantifiers inside the optional alpha group do
backtrack, because the unescaped `.` of the group matches any character. -/

/-- Capture groups of a successful match of `RGB_COLOR_REGEX`: the three
digit groups 1-3 and the optional alpha group 5. -/
structure RGBMatch where
  g1 : List Char
  g2 : List Char
  g3 : List Char
  g5 : Option (List Char)
deriving DecidableEq

/-- Match `.\d*\)` (the tail of the alpha group followed by the closing
parenthesis): one character for the unescaped dot — any character except a
line terminator — then greedily digits, then `)`.  Returns the characters
consumed before `)` and the rest after it.  The inner `\d*` never needs to
backtrack, since a given-back digit can not match `\)`. -/
def dotDigitsClose (l : List Char) : Option (List Char × List Char) :=
  match l with
  | [] => none
  | c :: rest =>
    if c = '\n' ∨ c = '\r' then none
    else
      match rest.dropWhile jsDigit with
      | ')' :: tail => some (c :: rest.takeWhile jsDigit, tail)
      | _ => none

/-- Backtracking loop for the leading `\d*` of the alpha group: `takenRev`
holds the digits currently consumed (in reverse); try the continuation
`.\d*\)`, and on failure give back one digit at a time. -/
def g5Backtrack : List Char → List Char → Option (List Char × List Char)
  | takenRev, l =>
    match dotDigitsClose l with
    | some (g5tail, rest) => some (takenRev.reverse ++ g5tail, rest)
    | none =>
      match takenRev with
      | [] => none
      | d :: moreRev => g5Backtrack moreRev (d :: l)

/-- Backtracking loop for the `\s*` right after the comma of the alpha
group: try the digit/dot continuation, and on failure give back one
whitespace character at a time. -/
def afterCommaTry : List Char → List Char → Option (List Char × List Char)
  | wsTakenRev, l =>
    match g5Backtrack ((l.takeWhile jsDigit).reverse) (l.dropWhile jsDigit) with
    | some r => some r
    | none =>
      match wsTakenRev with
      | [] => none
      | c :: moreRev => afterCommaTry moreRev (c :: l)

/-- Attempt the body of `RGB_COLOR_REGEX` at the start of `l`. -/
def matchBodyAt (l : List Char) : Option RGBMatch :=
  match l with
  | '(' :: r1 =>
    match r1.takeWhile jsDigit with
    | [] => none
    | d1 =>
      match r1.dropWhile jsDigit with
      | ',' :: r2 =>
        let r3 := r2.dropWhile jsSpace
        match r3.takeWhile jsDigit with
        | [] => none
        | d2 =>
          match r3.dropWhile jsDigit with
          | ',' :: r4 =>
            let r5 := r4.dropWhile jsSpace
            match r5.takeWhile jsDigit with
            | [] => none
            | d3 =>
              let r6 := r5.dropWhile jsDigit
              match
                (match r6 with
                 | ',' :: r7 =>
                   afterCommaTry ((r7.takeWhile jsSpace).reverse) (r7.dropWhile jsSpace)
                 | _ => none) with
              | some (g5, _) => some ⟨d1, d2, d3, some g5⟩
              | none =>
                match r6 with
                | ')' :: _ => some ⟨d1, d2, d3, none⟩
                | _ => none
          | _ => none
      | _ => none
  | _ => none

/-- `RGB_COLOR_REGEX.exec`: try the pattern body at every start position
from the left; `none` when no position matches. -/
def regexExec : List Char → Option RGBMatch
  | [] => none
  | c :: rest =>
    match matchBodyAt (c :: rest) with
    | some m => some m
    | none => regexExec rest

/-- String branch of the `Color` constructor, after trimming.  The source
branches on `indexOf("#") === 0` (hex form: three `parseInt(_, 16)` calls on
the two-character chunks after `#`; the alpha field is never assigned) and
on `indexOf("rgb") === 0` (run `RGB_COLOR_REGEX.exec`; on failure warn and
return with all fields unassigned; on success three `parseInt(_, 10)` calls
on groups 1-3 and `a = res[5] ? parseFloat(res[5]) : 1` — group 5 is never
the empty string, so its truthiness is its presence). -/
def Color.parseChars (l : List Char) : Color :=
  if l.head? = some '#' then
    let t := l.drop 1
    { r := (parseIntN hexDigitVal 16 (t.take 2)).map (fun n : ℕ => (n : ℚ)),
      g := (parseIntN hexDigitVal 16 ((t.drop 2).take 2)).map (fun n : ℕ => (n : ℚ)),
      b := (parseIntN hexDigitVal 16 ((t.drop 4).take 2)).map (fun n : ℕ => (n : ℚ)),
      a := none }
  else if l.take 3 = ['r', 'g', 'b'] then
    match regexExec l with
    | none => ⟨none, none, none, none⟩
    | some m =>
      { r := (parseIntN decDigitVal 10 m.g1).map (fun n : ℕ => (n : ℚ)),
        g := (parseIntN decDigitVal 10 m.g2).map (fun n : ℕ => (n : ℚ)),
        b := (parseIntN decDigitVal 10 m.g3).map (fun n : ℕ => (n : ℚ)),
        a := match m.g5 with
             | some g5 => parseFloatQ g5
             | none => some 1 }
  else ⟨none, none, none, none⟩

/-- The `Color` constructor applied to a string: `r = r.trim()` and then the
format branches. -/
def Color.ofString (s : String) : Color := Color.parseChars (jsTrim s.data)

/-- The `Color` constructor applied to numeric channels:
`this.r = r; this.g = g; this.b = b; this.a = a || 1` — the default `1` is
taken whenever `a` is falsy, i.e. absent (`undefined`) or `0`. -/
def Color.ofRGBA (r g b a : Option ℚ) : Color :=
  ⟨r, g, b, some (match a with
                  | some v => if v = 0 then 1 else v
                  | none => 1)⟩

/-- From `Color.setRGB` (mutating in the source; here it returns the new
value): assigns the three channels and `this.a = a || 1`. -/
def Color.setRGB (_c : Color) (r g b : ℚ) (a : Option ℚ) : Color :=
  ⟨some r, some g, some b, some (match a with
                                 | some v => if v = 0 then 1 else v
                                 | none => 1)⟩

/-! ### Boid (`src/src/index.ts`) -/

/-- A boid: location, direction (a unit vector by convention, not
enforced), speed, color and perception angle in degrees (constructor
default 120). -/
structure Boid where
  loc : Vector2
  dir : Vector2
  speed : ℝ
  color : Color
  perceptionAngle : ℝ

/-- The helper closure `between` inside `checkIntersection`: `x` lies
strictly between `min a b` and `max a b`. -/
def between (a b x : ℝ) : Prop := min a b < x ∧ x < max a b

/-- From `Boid.checkIntersection`.  The source returns early — `false` when
the squared distance from `sectorLocation` to `pointLocation` exceeds
`sectorRadius²`, `false` when the two angles coincide, `true` when
`|sectorStartAngle - sectorEndAngle| == 2π`, and otherwise the `between`
test on `pointVectorAngle = atan2(Δy, Δx) - this.dir.getDirection()` — so
as a proposition it is the conjunction below.  (The `arc(...)` call at the
top only draws the sector outline and does not affect the result.) -/
def Boid.checkIntersection (bd : Boid) (pointLocation sectorLocation : Vector2)
    (sectorRadius sectorStartAngle sectorEndAngle : ℝ) : Prop :=
  (pointLocation.x - sectorLocation.x) ^ 2 + (pointLocation.y - sectorLocation.y) ^ 2
      ≤ sectorRadius ^ 2 ∧
  sectorStartAngle ≠ sectorEndAngle ∧
  (|sectorStartAngle - sectorEndAngle| = 2 * Real.pi ∨
    between sectorStartAngle sectorEndAngle
      (atan2 (pointLocation.y - sectorLocation.y) (pointLocation.x - sectorLocation.x)
        - bd.dir.getDirection))

/-- First wrap `if` of `Boid.update` for one coordinate:
`if (x > bound) x = 0`. -/
noncomputable def wrapAfterHigh (bound x : ℝ) : ℝ := if x > bound then 0 else x

/-- One coordinate of the wrap step of `Boid.update`: the two sequential
`if` statements of the source, the second reading the value left by the
first: `if (x > bound) x = 0; if (x < 0) x = bound`. -/
noncomputable def wrapCoord (bound x : ℝ) : ℝ :=
  if wrapAfterHigh bound x < 0 then bound else wrapAfterHigh bound x

/-- From `Boid.update(deltaTime)` (state part): move by
`this.loc.addAndMutate(this.dir.multiply(this.speed * deltaTime))`, then
wrap `x` against `CANVAS_WIDTH` and `y` against `CANVAS_HEIGHT` (here the
parameters `w` and `h`; the running sketch sets both to 600).  The
perception call that follows only toggles an external indicator color and
is modelled by `Boid.updateSectorCall` below. -/
noncomputable def Boid.update (bd : Boid) (w h dt : ℝ) : Boid :=
  let loc1 := bd.loc.add (bd.dir.multiply (bd.speed * dt))
  { bd with loc := ⟨wrapCoord w loc1.x, wrapCoord h loc1.y⟩ }

/-- Argument tuple of a `checkIntersection` call. -/
structure SectorCall where
  point : Vector2
  sector : Vector2
  radius : ℝ
  startAngle : ℝ
  endAngle : ℝ

/-- The arguments `Boid.update` passes to `this.checkIntersection` after
the move and wrap steps:
`(new Vector2(200, 200), this.loc, 50, -this.perceptionAngle * Math.PI / 180,
this.perceptionAngle * Math.PI / 180)`, where `this.loc` is the already
moved and wrapped location. -/
noncomputable def Boid.updateSectorCall (bd : Boid) (w h dt : ℝ) : SectorCall :=
  ⟨⟨200, 200⟩, (bd.update w h dt).loc, 50,
   -bd.perceptionAngle * Real.pi / 180, bd.perceptionAngle * Real.pi / 180⟩

/-! ### Basic facts about the embedded operations -/

/-- JavaScript's `Math.atan2(0, 0)` is `0`. -/
theorem atan2_zero_zero : atan2 0 0 = 0 := by
  unfold atan2
  have h : (⟨0, 0⟩ : ℂ) = 0 := Complex.ext rfl rfl
  rw [h, Complex.arg_zero]

/-- The direction of the unit vector along the x axis is `0`. -/
theorem getDirection_unitX : (⟨1, 0⟩ : Vector2).getDirection = 0 := by
  unfold Vector2.getDirection atan2
  have h : (⟨(1 : ℝ), (0 : ℝ)⟩ : ℂ) = 1 := Complex.ext rfl rfl
  rw [h, Complex.arg_one]

/-- A sample boid matching the sketch's construction (the constructed
direction is the normalised `(1, 1)` in the sketch; any unit vector serves
the claims, and `(1, 0)` keeps the facing angle at `0`). -/
noncomputable def sampleBoid : Boid :=
  ⟨⟨130, 100⟩, ⟨1, 0⟩, 0.05, Color.ofString "#ff0000", 120⟩

/-- Swapping the two angle arguments preserves the result (one direction;
the `iff` below applies it twice). -/
theorem checkIntersection_swap (bd : Boid) (p s : Vector2) (r a c : ℝ)
    (h : bd.checkIntersection p s r a c) : bd.checkIntersection p s r c a := by
  obtain ⟨h1, h2, h3⟩ := h
  refine ⟨h1, Ne.symm h2, ?_⟩
  cases h3 with
  | inl hfull => exact Or.inl (by rw [abs_sub_comm]; exact hfull)
  | inr hb =>
    obtain ⟨hl, hr⟩ := hb
    exact Or.inr ⟨by rwa [min_comm], by rwa [max_comm]⟩

/-- C9: `checkIntersection` is symmetric in its start and end angles: the
distance test ignores them, the equality test, the absolute difference and
the `between` test (built from `min` and `max`) are order independent. -/
theorem checkIntersection_symm (bd : Boid) (p s : Vector2) (r a c : ℝ) :
    bd.checkIntersection p s r a c ↔ bd.checkIntersection p s r c a :=
  ⟨checkIntersection_swap bd p s r a c, checkIntersection_swap bd p s r c a⟩

/-- C4: with equal start and end angles the sector has zero width and
`checkIntersection` never holds, wherever the point is. -/
theorem checkIntersection_zero_width (bd : Boid) (p s : Vector2) (r a : ℝ) :
    ¬ bd.checkIntersection p s r a a := by
  rintro ⟨-, hne, -⟩
  exact hne rfl

/-- Witness for C4 at a concrete input. -/
theorem checkIntersection_zero_width_witness :
    ¬ sampleBoid.checkIntersection ⟨0, 0⟩ ⟨0, 0⟩ 1 1 1 :=
  checkIntersection_zero_width sampleBoid ⟨0, 0⟩ ⟨0, 0⟩ 1 1

/-- C5: when the two angles differ by exactly `2π` the angular test is
skipped, and the point is reported inside whenever the squared distance is
at most the squared radius, for every facing direction and point angle. -/
theorem checkIntersection_full_circle (bd : Boid) (p s : Vector2) (r a c : ℝ)
    (hfull : |a - c| = 2 * Real.pi)
    (hdist : (p.x - s.x) ^ 2 + (p.y - s.y) ^ 2 ≤ r ^ 2) :
    bd.checkIntersection p s r a c := by
  refine ⟨hdist, ?_, Or.inl hfull⟩
  intro hac
  rw [hac, sub_self, abs_zero] at hfull
  have := Real.pi_pos
  linarith

/-- Witness for C5 at a concrete input. -/
theorem checkIntersection_full_circle_witness :
    sampleBoid.checkIntersection ⟨0, 0⟩ ⟨0, 0⟩ 1 0 (2 * Real.pi) := by
  refine checkIntersection_full_circle sampleBoid ⟨0, 0⟩ ⟨0, 0⟩ 1 0 (2 * Real.pi) ?_ ?_
  · rw [zero_sub, abs_neg, abs_of_nonneg (by positivity)]
  · norm_num

/-- Counterexample to C2 as stated: the boid faces along the x axis, the
point sits exactly at the sector location, the radius is `1 > 0` and the
angles `1 ≠ 2` span a nonzero width, yet the result is false — the
un-normalised angle `atan2(0,0) - facing = 0` is not strictly between `1`
and `2`. -/
theorem checkIntersection_center_not_always :
    (0 : ℝ) < 1 ∧ (1 : ℝ) ≠ 2 ∧
      ¬ sampleBoid.checkIntersection ⟨0, 0⟩ ⟨0, 0⟩ 1 1 2 := by
  refine ⟨by norm_num, by norm_num, ?_⟩
  rintro ⟨-, -, h⟩
  have hdir : sampleBoid.dir.getDirection = 0 := getDirection_unitX
  cases h with
  | inl hfull =>
    rw [show (1 : ℝ) - 2 = -1 by norm_num, abs_neg, abs_one] at hfull
    have := Real.pi_gt_three
    linarith
  | inr hb =>
    obtain ⟨hl, -⟩ := hb
    rw [hdir] at hl
    norm_num [atan2_zero_zero] at hl

/-- C2 amended: with the point exactly at the sector location, a positive
radius and distinct angles, the result holds exactly when the sector is a
full circle or the negated facing angle lies strictly between the two
angles (the tested angle is `atan2(0,0) - facing = -facing`). -/
theorem checkIntersection_center_iff (bd : Boid) (p s : Vector2) (r a c : ℝ)
    (hp : p = s) (_hr : 0 < r) (hne : a ≠ c) :
    (bd.checkIntersection p s r a c ↔
      (|a - c| = 2 * Real.pi ∨ between a c (-bd.dir.getDirection))) := by
  subst hp
  unfold Boid.checkIntersection
  rw [sub_self, sub_self, atan2_zero_zero, zero_sub]
  constructor
  · rintro ⟨-, -, h3⟩
    exact h3
  · intro h
    exact ⟨by simpa using sq_nonneg r, hne, h⟩

/-- Witness for C2 (amended) at a concrete input. -/
theorem checkIntersection_center_iff_witness :
    sampleBoid.checkIntersection ⟨0, 0⟩ ⟨0, 0⟩ 1 (-1) 1 ↔
      (|(-1 : ℝ) - 1| = 2 * Real.pi ∨ between (-1) 1 (-sampleBoid.dir.getDirection)) :=
  checkIntersection_center_iff sampleBoid ⟨0, 0⟩ ⟨0, 0⟩ 1 (-1) 1 rfl
    (by norm_num) (by norm_num)

/-- Counterexample to C1 as stated: for the sample boid (perception angle
120 degrees) the start angle actually passed is `-120·π/180`, not
`-(120/2)·π/180`. -/
theorem update_sector_call_halved_angle_false :
    (sampleBoid.updateSectorCall 600 600 0).startAngle
      ≠ -(sampleBoid.perceptionAngle / 2 * Real.pi / 180) := by
  show -sampleBoid.perceptionAngle * Real.pi / 180
      ≠ -(sampleBoid.perceptionAngle / 2 * Real.pi / 180)
  rw [show sampleBoid.perceptionAngle = 120 from rfl]
  intro hEq
  have := Real.pi_pos
  linarith

/-- C1 amended: every `update(deltaTime)` invokes the sector-intersection
check with the fixed target `(200, 200)`, the boid's own (moved and
wrapped) location, the fixed radius 50, and start/end angles
`∓perceptionAngle` converted to radians — so the sector's total angular
width is `2·perceptionAngle` in degrees, not `perceptionAngle`. -/
theorem update_sector_call_angles (bd : Boid) (w h dt : ℝ)
    (hP : 0 ≤ bd.perceptionAngle) :
    (bd.updateSectorCall w h dt).point = ⟨200, 200⟩ ∧
    (bd.updateSectorCall w h dt).sector = (bd.update w h dt).loc ∧
    (bd.updateSectorCall w h dt).radius = 50 ∧
    (bd.updateSectorCall w h dt).startAngle = -(bd.perceptionAngle * Real.pi / 180) ∧
    (bd.updateSectorCall w h dt).endAngle = bd.perceptionAngle * Real.pi / 180 ∧
    |(bd.updateSectorCall w h dt).startAngle - (bd.updateSectorCall w h dt).endAngle|
      = 2 * bd.perceptionAngle * Real.pi / 180 := by
  refine ⟨rfl, rfl, rfl, ?_, rfl, ?_⟩
  · show -bd.perceptionAngle * Real.pi / 180 = -(bd.perceptionAngle * Real.pi / 180)
    ring
  · show |(-bd.perceptionAngle * Real.pi / 180) - bd.perceptionAngle * Real.pi / 180|
        = 2 * bd.perceptionAngle * Real.pi / 180
    have h0 : 0 ≤ 2 * bd.perceptionAngle * Real.pi / 180 :=
      div_nonneg (mul_nonneg (mul_nonneg (by norm_num) hP) Real.pi_pos.le) (by norm_num)
    rw [show -bd.perceptionAngle * Real.pi / 180 - bd.perceptionAngle * Real.pi / 180
          = -(2 * bd.perceptionAngle * Real.pi / 180) by ring, abs_neg, abs_of_nonneg h0]

/-- Witness for C1 (amended) at a concrete input. -/
theorem update_sector_call_angles_witness :
    (sampleBoid.updateSectorCall 600 600 0).point = ⟨200, 200⟩ ∧
    (sampleBoid.updateSectorCall 600 600 0).sector = (sampleBoid.update 600 600 0).loc ∧
    (sampleBoid.updateSectorCall 600 600 0).radius = 50 ∧
    (sampleBoid.updateSectorCall 600 600 0).startAngle
      = -(sampleBoid.perceptionAngle * Real.pi / 180) ∧
    (sampleBoid.updateSectorCall 600 600 0).endAngle
      = sampleBoid.perceptionAngle * Real.pi / 180 ∧
    |(sampleBoid.updateSectorCall 600 600 0).startAngle
        - (sampleBoid.updateSectorCall 600 600 0).endAngle|
      = 2 * sampleBoid.perceptionAngle * Real.pi / 180 :=
  update_sector_call_angles sampleBoid 600 600 0
    (by show (0 : ℝ) ≤ 120; norm_num)

/-- C6: the wrap step sends a coordinate strictly above the bound to `0`
and a strictly negative coordinate to the bound, leaves `0` and the bound
itself unchanged, acts independently on `x` (against the width) and `y`
(against the height), and in particular one `update(0)` tick from
`x = width + 1` lands on `x = 0`. -/
theorem update_wrap_boundaries (w h dt xa xb : ℝ) (bd : Boid) :
    (bd.update w h dt).loc.x = wrapCoord w (bd.loc.x + bd.dir.x * (bd.speed * dt)) ∧
    (bd.update w h dt).loc.y = wrapCoord h (bd.loc.y + bd.dir.y * (bd.speed * dt)) ∧
    (xa > w → wrapCoord w xa = 0) ∧
    (0 ≤ w → xb < 0 → wrapCoord w xb = w) ∧
    wrapCoord w 0 = 0 ∧
    wrapCoord w w = w ∧
    (bd.loc.x = w + 1 → (bd.update w h 0).loc.x = 0) := by
  refine ⟨rfl, rfl, ?_, ?_, ?_, ?_, ?_⟩
  · intro hxa
    unfold wrapCoord wrapAfterHigh
    rw [if_pos hxa]
    norm_num
  · intro hw hxb
    unfold wrapCoord wrapAfterHigh
    rw [if_neg (by linarith : ¬ xb > w), if_pos hxb]
  · unfold wrapCoord wrapAfterHigh
    rw [ite_self, if_neg (lt_irrefl 0)]
  · unfold wrapCoord wrapAfterHigh
    rw [if_neg (lt_irrefl w), ite_self]
  · intro hx
    show wrapCoord w (bd.loc.x + bd.dir.x * (bd.speed * 0)) = 0
    rw [mul_zero, mul_zero, add_zero, hx]
    unfold wrapCoord wrapAfterHigh
    rw [if_pos (lt_add_one w)]
    norm_num

/-- Witness for C6 at concrete inputs (field 600 by 600, a boid parked at
`x = 601 = width + 1`). -/
theorem update_wrap_boundaries_witness :
    wrapCoord 600 601 = 0 ∧ wrapCoord 600 (-1) = 600 ∧
    wrapCoord 600 0 = 0 ∧ wrapCoord 600 600 = 600 ∧
    ({ sampleBoid with loc := ⟨601, 100⟩ }.update 600 600 0).loc.x = 0 := by
  obtain ⟨-, -, h3, h4, h5, h6, h7⟩ :=
    update_wrap_boundaries 600 600 0 601 (-1) { sampleBoid with loc := ⟨601, 100⟩ }
  exact ⟨h3 (by norm_num), h4 (by norm_num) (by norm_num), h5, h6,
    h7 (by show (601 : ℝ) = 600 + 1; norm_num)⟩

/-- Both wrap `if`s keep a coordinate inside `[0, bound]` when the bound is
nonnegative. -/
theorem wrapCoord_bounds {w : ℝ} (hw : 0 ≤ w) (x : ℝ) :
    0 ≤ wrapCoord w x ∧ wrapCoord w x ≤ w := by
  unfold wrapCoord wrapAfterHigh
  split_ifs <;> constructor <;> linarith

/-- C8: whatever the move step produces, the wrap step re-establishes
`0 ≤ x ≤ width` and `0 ≤ y ≤ height` on every tick (real-number model, so
the non-NaN proviso of the claim is automatic). -/
theorem update_loc_bounds (bd : Boid) (w h dt : ℝ) (hw : 0 ≤ w) (hh : 0 ≤ h) :
    0 ≤ (bd.update w h dt).loc.x ∧ (bd.update w h dt).loc.x ≤ w ∧
    0 ≤ (bd.update w h dt).loc.y ∧ (bd.update w h dt).loc.y ≤ h := by
  have hx := wrapCoord_bounds hw (bd.loc.x + bd.dir.x * (bd.speed * dt))
  have hy := wrapCoord_bounds hh (bd.loc.y + bd.dir.y * (bd.speed * dt))
  exact ⟨hx.1, hx.2, hy.1, hy.2⟩

/-- Witness for C8 at a concrete input. -/
theorem update_loc_bounds_witness :
    0 ≤ (sampleBoid.update 600 600 1000).loc.x ∧
    (sampleBoid.update 600 600 1000).loc.x ≤ 600 ∧
    0 ≤ (sampleBoid.update 600 600 1000).loc.y ∧
    (sampleBoid.update 600 600 1000).loc.y ≤ 600 :=
  update_loc_bounds sampleBoid 600 600 1000 (by norm_num) (by norm_num)

/-- C7: `setMagnitude m` on the zero vector yields exactly `(m, 0)` because
the zero vector's direction evaluates to `atan2(0,0) = 0`; on a nonzero
vector it rescales along the current direction (the direction is preserved
and the magnitude becomes `m`, for positive `m`). -/
theorem setMagnitude_spec (v : Vector2) (m : ℝ) :
    Vector2.setMagnitude ⟨0, 0⟩ m = ⟨m, 0⟩ ∧
    (¬(v.x = 0 ∧ v.y = 0) → 0 < m →
      (v.setMagnitude m).getDirection = v.getDirection ∧
      (v.setMagnitude m).getMagnitude = m) := by
  constructor
  · unfold Vector2.setMagnitude
    rw [show (⟨0, 0⟩ : Vector2).getDirection = 0 from atan2_zero_zero,
      Real.cos_zero, Real.sin_zero, one_mul, zero_mul]
  · intro _hv hm
    have hθIoc : v.getDirection ∈ Set.Ioc (-Real.pi) Real.pi :=
      Complex.arg_mem_Ioc ⟨v.x, v.y⟩
    constructor
    · show atan2 (Real.sin v.getDirection * m) (Real.cos v.getDirection * m)
          = v.getDirection
      unfold atan2
      rw [Complex.mk_eq_add_mul_I]
      rw [show ((Real.cos v.getDirection * m : ℝ) : ℂ)
            + ((Real.sin v.getDirection * m : ℝ) : ℂ) * Complex.I
          = (m : ℂ) * (↑(Real.cos v.getDirection)
            + ↑(Real.sin v.getDirection) * Complex.I) by push_cast; ring]
      rw [Complex.arg_real_mul _ hm, Complex.ofReal_cos, Complex.ofReal_sin]
      exact Complex.arg_cos_add_sin_mul_I hθIoc
    · show Real.sqrt ((Real.cos v.getDirection * m) * (Real.cos v.getDirection * m)
          + (Real.sin v.getDirection * m) * (Real.sin v.getDirection * m)) = m
      rw [show (Real.cos v.getDirection * m) * (Real.cos v.getDirection * m)
            + (Real.sin v.getDirection * m) * (Real.sin v.getDirection * m) = m ^ 2 by
          nlinarith [Real.sin_sq_add_cos_sq v.getDirection]]
      exact Real.sqrt_sq hm.le

/-- Witness for C7 at a concrete input. -/
theorem setMagnitude_spec_witness :
    Vector2.setMagnitude ⟨0, 0⟩ 2 = ⟨2, 0⟩ ∧
    ((⟨1, 0⟩ : Vector2).setMagnitude 2).getDirection = (⟨1, 0⟩ : Vector2).getDirection ∧
    ((⟨1, 0⟩ : Vector2).setMagnitude 2).getMagnitude = 2 := by
  obtain ⟨h1, h2⟩ := setMagnitude_spec ⟨1, 0⟩ 2
  have h3 := h2 (fun hc => one_ne_zero hc.1) (by norm_num)
  exact ⟨h1, h3.1, h3.2⟩

/-- C10: a falsy alpha — an explicit `0` just like an absent argument —
falls back to the default `1` in both the numeric constructor and
`setRGB`, so a fully transparent alpha can not be stored through either. -/
theorem color_alpha_falsy_default (r g b : Option ℚ) (c : Color) (r2 g2 b2 : ℚ) :
    (Color.ofRGBA r g b (some 0)).a = some 1 ∧
    (Color.ofRGBA r g b none).a = some 1 ∧
    (c.setRGB r2 g2 b2 (some 0)).a = some 1 ∧
    (c.setRGB r2 g2 b2 none).a = some 1 := by
  refine ⟨?_, rfl, ?_, rfl⟩ <;> simp [Color.ofRGBA, Color.setRGB]

/-! ### Color parsing facts (C3) -/

/-- A successful hex digit value is at most 15. -/
theorem hexDigitVal_le {c : Char} {v : ℕ} (h : hexDigitVal c = some v) : v ≤ 15 := by
  unfold hexDigitVal at h
  split_ifs at h with h1 h2 h3
  · injection h with h'
    omega
  · injection h with h'
    omega
  · injection h with h'
    omega

/-- A character with a hex digit value is not whitespace. -/
theorem hexDigitVal_not_space {c : Char} {v : ℕ} (h : hexDigitVal c = some v) :
    jsSpace c = false := by
  unfold hexDigitVal at h
  unfold jsSpace
  simp only [decide_eq_false_iff_not, List.mem_cons, List.not_mem_nil, or_false]
  split_ifs at h with h1 h2 h3
  · omega
  · omega
  · omega

/-- `dropWhile` is the identity on a list none of whose characters satisfy
the predicate. -/
theorem dropWhile_eq_self_of_all {p : Char → Bool} :
    ∀ {l : List Char}, (∀ c ∈ l, p c = false) → List.dropWhile p l = l
  | [], _ => rfl
  | a :: l, h => by
    rw [List.dropWhile_cons, if_neg]
    simp [h a (List.mem_cons_self a l)]

/-- Trimming a string with no whitespace characters is the identity. -/
theorem jsTrim_eq_self {l : List Char} (h : ∀ c ∈ l, jsSpace c = false) :
    jsTrim l = l := by
  unfold jsTrim
  rw [dropWhile_eq_self_of_all h,
    dropWhile_eq_self_of_all (fun c hc => h c (List.mem_reverse.mp hc)),
    List.reverse_reverse]

/-- Value of `parseInt(_, 16)` on a two hex digit string. -/
theorem parseIntN_hex_pair {c1 c2 : Char} {v1 v2 : ℕ}
    (h1 : hexDigitVal c1 = some v1) (h2 : hexDigitVal c2 = some v2) :
    parseIntN hexDigitVal 16 [c1, c2] = some (16 * v1 + v2) := by
  simp [parseIntN, parseIntCore, h1, h2]

/-- Counterexample to C3 as stated: `"#ff0000"` is a recognized hex string
that specifies no alpha, yet the constructed alpha is left unset rather
than defaulting to `1.0`; and `"rgb(999, 0, 0)"` matches the fixed pattern
yet yields a red channel of `999`, outside `[0, 255]`. -/
theorem color_string_parse_counterexample :
    (Color.ofString "#ff0000").a ≠ some 1 ∧
    (Color.ofString "rgb(999, 0, 0)").r = some 999 ∧ ¬ ((999 : ℚ) ≤ 255) := by
  refine ⟨by decide, by decide, by norm_num⟩

/-- C3 amended: a `'#RRGGBB'` hex string yields r/g/b integers in
`[0, 255]` but leaves the alpha unset (the hex branch never assigns it);
an `rgb(...)`/`rgba(...)` string matching the fixed pattern yields r/g/b
equal to the decimal values of the digit groups — nonnegative integers,
within `[0, 255]` only when the written components are — and alpha `1.0`
exactly when the optional alpha group is absent. -/
theorem color_string_parse :
    (∀ (s : String) (c1 c2 c3 c4 c5 c6 : Char) (v1 v2 v3 v4 v5 v6 : ℕ),
      s.data = ['#', c1, c2, c3, c4, c5, c6] →
      hexDigitVal c1 = some v1 → hexDigitVal c2 = some v2 →
      hexDigitVal c3 = some v3 → hexDigitVal c4 = some v4 →
      hexDigitVal c5 = some v5 → hexDigitVal c6 = some v6 →
      (Color.ofString s).r = some ((16 * v1 + v2 : ℕ) : ℚ) ∧
      (Color.ofString s).g = some ((16 * v3 + v4 : ℕ) : ℚ) ∧
      (Color.ofString s).b = some ((16 * v5 + v6 : ℕ) : ℚ) ∧
      16 * v1 + v2 ≤ 255 ∧ 16 * v3 + v4 ≤ 255 ∧ 16 * v5 + v6 ≤ 255 ∧
      (Color.ofString s).a = none) ∧
    (∀ (s : String) (rest : List Char) (m : RGBMatch),
      jsTrim s.data = 'r' :: 'g' :: 'b' :: rest →
      regexExec (jsTrim s.data) = some m →
      (Color.ofString s).r = (parseIntN decDigitVal 10 m.g1).map (fun n : ℕ => (n : ℚ)) ∧
      (Color.ofString s).g = (parseIntN decDigitVal 10 m.g2).map (fun n : ℕ => (n : ℚ)) ∧
      (Color.ofString s).b = (parseIntN decDigitVal 10 m.g3).map (fun n : ℕ => (n : ℚ)) ∧
      (∀ q, (Color.ofString s).r = some q → ∃ n : ℕ, q = (n : ℚ)) ∧
      (m.g5 = none → (Color.ofString s).a = some 1)) := by
  constructor
  · intro s c1 c2 c3 c4 c5 c6 v1 v2 v3 v4 v5 v6 hs h1 h2 h3 h4 h5 h6
    have hall : ∀ c ∈ s.data, jsSpace c = false := by
      rw [hs]
      intro c hc
      simp only [List.mem_cons, List.not_mem_nil, or_false] at hc
      rcases hc with rfl | rfl | rfl | rfl | rfl | rfl | rfl
      · rfl
      · exact hexDigitVal_not_space h1
      · exact hexDigitVal_not_space h2
      · exact hexDigitVal_not_space h3
      · exact hexDigitVal_not_space h4
      · exact hexDigitVal_not_space h5
      · exact hexDigitVal_not_space h6
    unfold Color.ofString
    rw [jsTrim_eq_self hall, hs]
    unfold Color.parseChars
    rw [if_pos (show (['#', c1, c2, c3, c4, c5, c6].head? = some '#') from rfl)]
    refine ⟨?_, ?_, ?_, ?_, ?_, ?_, rfl⟩
    · show (parseIntN hexDigitVal 16 [c1, c2]).map (fun n : ℕ => (n : ℚ)) = _
      rw [parseIntN_hex_pair h1 h2, Option.map_some']
    · show (parseIntN hexDigitVal 16 [c3, c4]).map (fun n : ℕ => (n : ℚ)) = _
      rw [parseIntN_hex_pair h3 h4, Option.map_some']
    · show (parseIntN hexDigitVal 16 [c5, c6]).map (fun n : ℕ => (n : ℚ)) = _
      rw [parseIntN_hex_pair h5 h6, Option.map_some']
    · have := hexDigitVal_le h1
      have := hexDigitVal_le h2
      omega
    · have := hexDigitVal_le h3
      have := hexDigitVal_le h4
      omega
    · have := hexDigitVal_le h5
      have := hexDigitVal_le h6
      omega
  · intro s rest m htrim hexec
    unfold Color.ofString
    rw [htrim] at hexec ⊢
    unfold Color.parseChars
    rw [if_neg (by simp),
      if_pos (show List.take 3 ('r' :: 'g' :: 'b' :: rest) = ['r', 'g', 'b'] from rfl),
      hexec]
    refine ⟨rfl, rfl, rfl, ?_, ?_⟩
    · intro q hq
      obtain ⟨n, -, hn⟩ := Option.map_eq_some'.mp hq
      exact ⟨n, hn.symm⟩
    · intro hg5
      show (match m.g5 with
            | some g5 => parseFloatQ g5
            | none => some 1) = some 1
      rw [hg5]

/-- Witness for C3 (amended) at concrete inputs. -/
theorem color_string_parse_witness :
    (Color.ofString "#ff0000").r = some 255 ∧
    (Color.ofString "#ff0000").a = none ∧
    (Color.ofString "rgb(10, 20, 30)").b = some 30 ∧
    (Color.ofString "rgb(10, 20, 30)").a = some 1 := by
  obtain ⟨hr, -, -, -, -, -, ha⟩ :=
    color_string_parse.1 "#ff0000" 'f' 'f' '0' '0' '0' '0' 15 15 0 0 0 0
      (by decide) (by decide) (by decide) (by decide) (by decide) (by decide) (by decide)
  obtain ⟨-, -, hb, -, ha2⟩ :=
    color_string_parse.2 "rgb(10, 20, 30)"
      ['(', '1', '0', ',', ' ', '2', '0', ',', ' ', '3', '0', ')']
      ⟨['1', '0'], ['2', '0'], ['3', '0'], none⟩ (by decide) (by decide)
  refine ⟨?_, ha, ?_, ha2 rfl⟩
  · rw [hr]
    norm_num
  · rw [hb]
    decide

end Boids
